import Mathlib

/-!
Verification development for the request-orchestration layer of the AI-Tutor
Streamlit application (src/Tutor.py).

The embedding is shallow: every Python function of the orchestration core is
translated into an executable Lean definition over explicit state.

Conventions of the embedding:

- Python exceptions are values of the inductive type PyErr; a function that can
  raise an uncaught exception returns Except PyErr A, while a function whose
  body catches every exception is total.
- CPython float arithmetic (the expression int(MAX_IMAGE_WIDTH * (h / w)) in
  resize_image_for_display) is modelled exactly: a nonnegative finite binary64
  value is a pair of a 53-bit significand and a binary exponent, and division
  and multiplication round to nearest, ties to even, exactly as IEEE-754
  prescribes for the normal range.  All arithmetic is over Nat and Int so that
  every concrete instance evaluates inside the kernel.
- The Streamlit cache decorator st.cache_resource memoizes the returned value
  of get_agent (including a returned None) for the process lifetime; it is
  modelled as explicit state AgentCache threaded through the calls.
- The filesystem touched by NamedTemporaryFile and os.unlink is an association
  list from temp paths to the byte strings written into them, together with
  the fresh-name counter of the temp-name generator.
-/

namespace Tutor

/-! ### Python exceptions -/

/-- Python exceptions that the orchestration layer can raise or catch. -/
inductive PyErr where
  | zeroDivisionError
  | fileNotFoundError
  | attributeError
  | keyError (key : String)
  | runtimeError (msg : String)
  deriving DecidableEq

deriving instance DecidableEq for Except

/-! ### Exact model of CPython binary64 arithmetic (nonnegative, normal range)

The only float arithmetic in src/Tutor.py is lines 52-53:
  aspect_ratio = img.height / img.width
  new_height   = int(MAX_IMAGE_WIDTH * aspect_ratio)
one true division of two nonnegative ints, one multiplication by an int, and
one truncation.  We model binary64 values exactly. -/

/-- Fuel-driven base-2 logarithm; the fuel only has to dominate the recursion
depth, which is at most log2 of the argument.  Written this way (instead of
with well-founded recursion, as Nat.log2 in core is) so that concrete
instances reduce inside the kernel. -/
def log2F : ℕ → ℕ → ℕ
  | 0, _ => 0
  | f+1, n => if n ≤ 1 then 0 else log2F f (n / 2) + 1

/-- Base-2 logarithm, rounded down; log2Nat 0 = 0. -/
def log2Nat (n : ℕ) : ℕ := log2F n n

/-- Floor of the base-2 logarithm of the positive rational n / d. -/
def floorLog2Pair (n d : ℕ) : ℤ :=
  let a := log2Nat n
  let b := log2Nat d
  if d * 2 ^ a ≤ n * 2 ^ b then (a : ℤ) - b else (a : ℤ) - b - 1

/-- Round the nonnegative rational n / d to the nearest natural number,
ties going to the even neighbour (the rounding IEEE-754 uses, and also the
rounding of the Python builtin round). -/
def roundHalfEvenPair (n d : ℕ) : ℕ :=
  let f := n / d
  let rem := n % d
  if 2 * rem < d then f
  else if d < 2 * rem then f + 1
  else if f % 2 = 0 then f else f + 1

/-- A nonnegative finite binary64 value: the rational m * 2 ^ e.  Results of
roundDoubleRat have m = 0 or 2 ^ 52 ≤ m ≤ 2 ^ 53. -/
structure FloatRep where
  m : ℕ
  e : ℤ
  deriving DecidableEq

/-- Round the nonnegative rational n / d (with d ≠ 0) to the nearest binary64
value, ties to even: the IEEE-754 correctly-rounded result in the normal
range, which is what CPython produces for int / int division. -/
def roundDoubleRat (n d : ℕ) : FloatRep :=
  if n = 0 then ⟨0, 0⟩
  else
    let e : ℤ := floorLog2Pair n d - 52
    if 0 ≤ e then ⟨roundHalfEvenPair n (d * 2 ^ e.toNat), e⟩
    else ⟨roundHalfEvenPair (n * 2 ^ (-e).toNat) d, e⟩

/-- CPython true division a / b of two nonnegative ints as a binary64 value. -/
def pyFloatDivNat (a b : ℕ) : FloatRep := roundDoubleRat a b

/-- CPython multiplication a * x of a nonnegative int by a nonnegative float:
the exact product rounded back to binary64. -/
def pyFloatMulNat (a : ℕ) (x : FloatRep) : FloatRep :=
  if 0 ≤ x.e then roundDoubleRat (a * x.m * 2 ^ x.e.toNat) 1
  else roundDoubleRat (a * x.m) (2 ^ (-x.e).toNat)

/-- CPython int(x) on a nonnegative float: truncation toward zero. -/
def pyIntOfFloat (x : FloatRep) : ℕ :=
  if 0 ≤ x.e then x.m * 2 ^ x.e.toNat else x.m / 2 ^ (-x.e).toNat

/-- The value int(maxW * (h / w)) computed by lines 52-53 of src/Tutor.py,
with CPython binary64 semantics. -/
def pyHeight (maxW h w : ℕ) : ℕ := pyIntOfFloat (pyFloatMulNat maxW (pyFloatDivNat h w))

/-- The height the spec prescribes: round(maxW * h / w) in exact rational
arithmetic (Python round, ties to even).  Modelled from the spec wording
"computes newHeight = round(maxWidth * originalHeight / originalWidth)",
for comparison against pyHeight, the height the code computes. -/
def specRoundHeight (maxW h w : ℕ) : ℕ := roundHalfEvenPair (maxW * h) w

/-! ### Images and resize_image_for_display (src/Tutor.py lines 47-57) -/

/-- Container format of an encoded image byte string. -/
inductive ImgFormat where
  | png
  | jpeg
  deriving DecidableEq

/-- An uploaded or camera-captured image file: its raw container bytes (what
getbuffer returns) together with the decoded pixel dimensions and container
format that Image.open reads off those bytes. -/
structure UploadedFile where
  bytes : List ℕ
  width : ℕ
  height : ℕ
  fmt : ImgFormat
  deriving DecidableEq

/-- Decoded view of the byte string returned by resize_image_for_display. -/
structure DisplayImage where
  width : ℕ
  height : ℕ
  fmt : ImgFormat
  deriving DecidableEq

/-- MAX_IMAGE_WIDTH constant, src/Tutor.py line 47. -/
def MAX_IMAGE_WIDTH : ℕ := 300

/-- resize_image_for_display, src/Tutor.py lines 49-57.  Computes
aspect_ratio = img.height / img.width (raising ZeroDivisionError when the
decoded width is 0 - there is no guard in the source), new_height =
int(MAX_IMAGE_WIDTH * aspect_ratio), resamples to
(MAX_IMAGE_WIDTH, new_height), and re-encodes with format PNG regardless of
the input container. -/
def resize_image_for_display (image_file : UploadedFile) : Except PyErr DisplayImage :=
  if image_file.width = 0 then .error .zeroDivisionError
  else .ok ⟨MAX_IMAGE_WIDTH, pyHeight MAX_IMAGE_WIDTH image_file.height image_file.width, .png⟩

/-! ### Filesystem, save_uploaded_file, os.unlink -/

/-- A temp-file path: the unique name the temp-name generator produced and the
suffix it was given. -/
structure TempPath where
  id : ℕ
  suffix : String
  deriving DecidableEq

/-- Look a path up in an association list of files. -/
def lookupFiles (p : TempPath) : List (TempPath × List ℕ) → Option (List ℕ)
  | [] => none
  | pr :: rest => if pr.1 = p then some pr.2 else lookupFiles p rest

/-- Remove every entry for a path from an association list of files. -/
def removeFiles (p : TempPath) : List (TempPath × List ℕ) → List (TempPath × List ℕ)
  | [] => []
  | pr :: rest => if pr.1 = p then removeFiles p rest else pr :: removeFiles p rest

/-- The filesystem state the program touches: the temp files present on disk
and the fresh-name counter of the NamedTemporaryFile name generator. -/
structure FS where
  files : List (TempPath × List ℕ)
  next : ℕ
  deriving DecidableEq

/-- save_uploaded_file, src/Tutor.py lines 93-97: NamedTemporaryFile with
suffix .jpg and delete=False allocates a fresh name, the buffer of the
uploaded file is written to it, and the name is returned. -/
def save_uploaded_file (uploaded_file : UploadedFile) (fs : FS) : TempPath × FS :=
  let p : TempPath := ⟨fs.next, ".jpg"⟩
  (p, ⟨(p, uploaded_file.bytes) :: fs.files, fs.next + 1⟩)

/-- os.unlink, as called on src/Tutor.py lines 132 and 143: deletes the file,
raising FileNotFoundError when the path does not exist. -/
def os_unlink (p : TempPath) (fs : FS) : Except PyErr FS :=
  match lookupFiles p fs.files with
  | some _ => .ok ⟨removeFiles p fs.files, fs.next⟩
  | none => .error .fileNotFoundError

/-! ### get_agent and the st.cache_resource cache (src/Tutor.py lines 59-73) -/

/-- State of the st.cache_resource cache around get_agent, plus an
instrumentation counter.  cached is the memoized return value of get_agent
(an Option ℕ, since the body returns the constructed agent or None);
constructions counts how many times the Agent constructor has run.  An agent
is identified by the index of the construction that produced it, so that
instance identity is observable. -/
structure AgentCache where
  cached : Option (Option ℕ)
  constructions : ℕ
  deriving DecidableEq

/-- get_agent, src/Tutor.py lines 59-73, together with the semantics of its
st.cache_resource decorator.  beh says whether the i-th run of the Agent
constructor succeeds or raises.  On a cache miss the body runs: it either
returns the new agent, or catches the constructor exception, shows the error,
and returns None.  Crucially, st.cache_resource memoizes whatever value the
body returned - including the None produced on the exception path. -/
def get_agent (beh : ℕ → Bool) (st : AgentCache) : Option ℕ × AgentCache :=
  match st.cached with
  | some v => (v, st)
  | none =>
    if beh st.constructions then
      (some st.constructions, ⟨some (some st.constructions), st.constructions + 1⟩)
    else
      (none, ⟨some none, st.constructions + 1⟩)

/-- The fresh cache state at process start: nothing memoized, no constructor
run yet. -/
def AgentCache.fresh : AgentCache := ⟨none, 0⟩

/-- Results and final state of n further calls to get_agent. -/
def get_agent_trace (beh : ℕ → Bool) : ℕ → AgentCache → List (Option ℕ) × AgentCache
  | 0, st => ([], st)
  | n+1, st =>
    let c := get_agent beh st
    let rest := get_agent_trace beh n c.2
    (c.1 :: rest.1, rest.2)

/-- Constructor behaviour that raises on the first attempt and would succeed
on any later one (credentials fixed after the first failure). -/
def failThenSucceed : ℕ → Bool := fun i => decide (0 < i)

/-! ### analyze_image (src/Tutor.py lines 76-91) -/

/-- What the analyze_image call leaves on the page.  The function is total:
get_agent catches its own exceptions and returns None, the agent-is-None case
returns early, and the remote call sits inside try/except, so no exception
escapes analyze_image. -/
inductive AnalyzeOutcome where
  | agentMissing
  | shown (content : String)
  | failed (e : PyErr)
  deriving DecidableEq

/-- analyze_image, src/Tutor.py lines 76-91, abstracted over the outcome run
of the remote call agent.run.  If the agent is None it returns at once; if the
remote call raises, the exception is caught and rendered with st.error. -/
def analyze_image (agentOpt : Option ℕ) (run : Except PyErr String) : AnalyzeOutcome :=
  match agentOpt with
  | none => .agentMissing
  | some _ =>
    match run with
    | .ok content => .shown content
    | .error e => .failed e

/-! ### The text tab (src/Tutor.py lines 110-122) -/

/-- What the text tab leaves on the page after the button is pressed. -/
inductive TextOutcome where
  | warnedEmptyTopic
  | answered (content : String)
  | errorShown (e : PyErr)
  deriving DecidableEq

/-- Outcome of one press of the Get Answer button, plus whether the remote
call agent.run was actually invoked. -/
structure TextTabResult where
  outcome : TextOutcome
  runInvoked : Bool
  deriving DecidableEq

/-- The Get Answer branch of main, src/Tutor.py lines 112-122.  The guard in
the source is the Python truthiness test if user_input, which holds exactly
when the string is nonempty - a whitespace-only string passes it.  agent is
st.session_state.agent; when it is None, the attribute access None.run raises
AttributeError before any remote call, and the except block shows it. -/
def main_text_tab (agent : Option ℕ) (run : Except PyErr String) (user_input : String) :
    TextTabResult :=
  if user_input = "" then ⟨.warnedEmptyTopic, false⟩
  else
    match agent with
    | none => ⟨.errorShown .attributeError, false⟩
    | some _ =>
      match run with
      | .ok content => ⟨.answered content, true⟩
      | .error e => ⟨.errorShown e, true⟩

/-! ### The image tabs (src/Tutor.py lines 124-143) -/

/-- Observable result of one run of the upload-image tab (the camera tab,
lines 135-143, is line-for-line the same logic).  uncaught is an exception
that escaped the script body (Streamlit then aborts the run); displayed is
the decoded preview handed to st.image; analyzedBytes is the content of the
temp file at the moment analyze_image received its path; unlinkCalls is the
trace of os.unlink invocations; unlinkError is an error raised by os.unlink,
if any. -/
structure ImageTabResult where
  uncaught : Option PyErr
  displayed : Option DisplayImage
  analyzedBytes : Option (List ℕ)
  outcome : Option AnalyzeOutcome
  unlinkCalls : List TempPath
  unlinkError : Option PyErr
  tempPath : Option TempPath
  fs : FS
  cache : AgentCache
  deriving DecidableEq

/-- The upload-image tab of main, src/Tutor.py lines 124-132: resize and
preview the uploaded file; when the button is clicked, save the original
buffer to a temp file, run analyze_image on the temp path, then os.unlink the
temp path.  beh drives the agent constructor, run the remote call. -/
def main_image_tab (beh : ℕ → Bool) (run : Except PyErr String) (uploaded_file : UploadedFile)
    (clicked : Bool) (fs : FS) (cache : AgentCache) : ImageTabResult :=
  match resize_image_for_display uploaded_file with
  | .error e => ⟨some e, none, none, none, [], none, none, fs, cache⟩
  | .ok disp =>
    if clicked then
      let saved := save_uploaded_file uploaded_file fs
      let temp_path := saved.1
      let fs1 := saved.2
      let agentCall := get_agent beh cache
      let analyzed := lookupFiles temp_path fs1.files
      let outcome := analyze_image agentCall.1 run
      match os_unlink temp_path fs1 with
      | .ok fs2 =>
        ⟨none, some disp, analyzed, some outcome, [temp_path], none, some temp_path, fs2,
          agentCall.2⟩
      | .error e2 =>
        ⟨none, some disp, analyzed, some outcome, [temp_path], some e2, some temp_path, fs1,
          agentCall.2⟩
    else ⟨none, some disp, none, none, [], none, none, fs, cache⟩

/-! ### Startup secrets check (src/Tutor.py lines 39-44) -/

/-- Result of the module-level secrets block: either st.stop after an st.error
naming the missing key, or both keys bound into the environment. -/
inductive StartupResult where
  | halted (missingKey : String)
  | started (tavilyKey geminiKey : String)
  deriving DecidableEq

/-- The module-level try/except of src/Tutor.py lines 39-44.  Reading
st.secrets raises KeyError naming the first absent key; the handler prints
the key carried by the exception and calls st.stop. -/
def secrets_setup (secrets : String → Option String) : StartupResult :=
  match secrets "TAVILY_KEY" with
  | none => .halted "TAVILY_KEY"
  | some t =>
    match secrets "GEMINI_KEY" with
    | none => .halted "GEMINI_KEY"
    | some g => .started t g

/-- Requests that reach main: st.stop at module level means the page body
never runs, so no request is handled. -/
def requests_handled (secrets : String → Option String) (requests : List String) : List String :=
  match secrets_setup secrets with
  | .halted _ => []
  | .started _ _ => requests

/-! ### Helper lemmas -/

/-- Fidelity of the fuel-driven logarithm: with enough fuel it agrees with
Nat.log2 from the core library. -/
theorem log2F_eq_log2 : ∀ (f n : ℕ), n ≤ f → log2F f n = Nat.log2 n := by
  intro f
  induction f with
  | zero =>
    intro n hn
    have h0 : n = 0 := Nat.le_zero.mp hn
    subst h0
    simp [log2F, Nat.log2]
  | succ k ih =>
    intro n hn
    rw [Nat.log2]
    by_cases h1 : n ≤ 1
    · have h2 : ¬ (n ≥ 2) := by omega
      simp [log2F, h1, h2]
    · have h2 : n ≥ 2 := by omega
      have hd : n / 2 ≤ k := by
        have := Nat.div_lt_self (show 0 < n by omega) (show 1 < 2 by omega)
        omega
      simp [log2F, h1, h2, ih (n / 2) hd]

/-- The logarithm used by the float model agrees with Nat.log2 everywhere. -/
theorem log2Nat_eq_log2 (n : ℕ) : log2Nat n = Nat.log2 n := log2F_eq_log2 n n le_rfl

/-- Anchor: the model reproduces the CPython value of 600 / 900, namely the
binary64 number 6004799503160661 * 2 ^ (-53) = 0.6666666666666666. -/
theorem pyFloatDivNat_600_900 : pyFloatDivNat 600 900 = ⟨6004799503160661, -53⟩ := by decide

/-- After removing a path, looking it up yields nothing. -/
theorem lookupFiles_removeFiles_self (p : TempPath) :
    ∀ l : List (TempPath × List ℕ), lookupFiles p (removeFiles p l) = none := by
  intro l
  induction l with
  | nil => rfl
  | cons pr rest ih =>
    by_cases h : pr.1 = p
    · simp [removeFiles, h, ih]
    · simp [removeFiles, lookupFiles, h, ih]

/-- A call hitting the cache returns the memoized value and leaves the state
unchanged. -/
theorem get_agent_cached (beh : ℕ → Bool) (st : AgentCache) (v : Option ℕ)
    (h : st.cached = some v) : get_agent beh st = (v, st) := by
  simp [get_agent, h]

/-- Every call of a trace that starts at a filled cache returns the memoized
value, and the state never changes. -/
theorem get_agent_trace_cached (beh : ℕ → Bool) (v : Option ℕ) :
    ∀ (n : ℕ) (st : AgentCache), st.cached = some v →
      get_agent_trace beh n st = (List.replicate n v, st) := by
  intro n
  induction n with
  | zero =>
    intro st h
    simp [get_agent_trace]
  | succ k ih =>
    intro st h
    have hga : get_agent beh st = (v, st) := get_agent_cached beh st v h
    simp [get_agent_trace, hga, ih st h, List.replicate_succ]

/-! ### Claims -/

/-- C1: for every image request with a decodable (positive-width) source, the
temp artifact written by save_uploaded_file is deleted exactly once after the
analysis call, on every exit path - in particular also when the remote call
raises, since analyze_image catches the exception and control still reaches
the single os.unlink; the unlink raises no error and the temp path no longer
exists afterwards.  Quantification over run covers both the successful and
the raising remote call. -/
theorem claim_C1 (beh : ℕ → Bool) (run : Except PyErr String) (f : UploadedFile)
    (fs : FS) (cache : AgentCache) (hw : f.width ≠ 0) :
    (main_image_tab beh run f true fs cache).unlinkCalls = [⟨fs.next, ".jpg"⟩] ∧
    (main_image_tab beh run f true fs cache).unlinkError = none ∧
    lookupFiles ⟨fs.next, ".jpg"⟩ (main_image_tab beh run f true fs cache).fs.files = none := by
  have hres : resize_image_for_display f =
      .ok ⟨MAX_IMAGE_WIDTH, pyHeight MAX_IMAGE_WIDTH f.height f.width, .png⟩ := by
    simp [resize_image_for_display, hw]
  simp [main_image_tab, hres, save_uploaded_file, os_unlink, lookupFiles, removeFiles,
    lookupFiles_removeFiles_self]

/-- C1 witness: a concrete image request whose remote call raises; the temp
file (path id 0) is unlinked exactly once, without error, and is gone from
the filesystem afterwards. -/
theorem claim_C1_witness :
    (main_image_tab (fun _ => true) (.error (.runtimeError "network down"))
      ⟨[1, 2, 3], 4, 3, .jpeg⟩ true ⟨[], 0⟩ AgentCache.fresh).unlinkCalls = [⟨0, ".jpg"⟩] ∧
    (main_image_tab (fun _ => true) (.error (.runtimeError "network down"))
      ⟨[1, 2, 3], 4, 3, .jpeg⟩ true ⟨[], 0⟩ AgentCache.fresh).unlinkError = none ∧
    lookupFiles ⟨0, ".jpg"⟩
      (main_image_tab (fun _ => true) (.error (.runtimeError "network down"))
        ⟨[1, 2, 3], 4, 3, .jpeg⟩ true ⟨[], 0⟩ AgentCache.fresh).fs.files = none :=
  claim_C1 (fun _ => true) (.error (.runtimeError "network down"))
    ⟨[1, 2, 3], 4, 3, .jpeg⟩ ⟨[], 0⟩ AgentCache.fresh (by decide)

/-- C2 counterexample: the claim says a construction failure is not cached and
a later call can retry and return Ready.  Under failThenSucceed the first
constructor run raises and every later run would succeed; yet the second call
to get_agent returns the memoized None (not a Ready handle), and the
constructor has still run only once, so no retry happened: st.cache_resource
cached the None that get_agent returned on the failure path. -/
theorem claim_C2_counterexample :
    (get_agent failThenSucceed (get_agent failThenSucceed AgentCache.fresh).2).1 = none ∧
    (get_agent failThenSucceed
      (get_agent failThenSucceed AgentCache.fresh).2).2.constructions = 1 := by decide

/-- C2 amended: if the first call to get_agent fails to construct the agent,
get_agent returns None and st.cache_resource caches that None; every later
call returns the cached None without retrying construction (the constructor
never runs again), even if a retry would succeed. -/
theorem claim_C2_amended (beh : ℕ → Bool) (N : ℕ) (h : beh 0 = false) :
    (get_agent beh AgentCache.fresh).1 = none ∧
    (get_agent_trace beh N (get_agent beh AgentCache.fresh).2).1 = List.replicate N none ∧
    (get_agent_trace beh N (get_agent beh AgentCache.fresh).2).2.constructions = 1 := by
  have h1 : get_agent beh AgentCache.fresh = (none, ⟨some none, 1⟩) := by
    simp [get_agent, AgentCache.fresh, h]
  rw [h1]
  have h2 := get_agent_trace_cached beh none N ⟨some none, 1⟩ rfl
  exact ⟨rfl, by rw [h2], by rw [h2]⟩

/-- C2 witness: under failThenSucceed the first call returns None, and the two
following calls both return the cached None with the constructor still having
run exactly once. -/
theorem claim_C2_witness :
    (get_agent failThenSucceed AgentCache.fresh).1 = none ∧
    (get_agent_trace failThenSucceed 2 (get_agent failThenSucceed AgentCache.fresh).2).1 =
      List.replicate 2 none ∧
    (get_agent_trace failThenSucceed 2
      (get_agent failThenSucceed AgentCache.fresh).2).2.constructions = 1 :=
  claim_C2_amended failThenSucceed 2 rfl

/-- C3 counterexample: on the whitespace-only input, the Python truthiness
test if user_input holds, so the remote call is invoked and its answer is
rendered - the operation does not return the empty-input warning, refuting
the claim for rawText consisting of three spaces. -/
theorem claim_C3_counterexample :
    main_text_tab (some 0) (.ok "answer") "   " = ⟨.answered "answer", true⟩ := by decide

/-- C3 amended: the text tab rejects only the exactly-empty string: on
rawText equal to the empty string it shows the empty-topic warning and never
invokes the remote call, but on any nonempty string - including
whitespace-only input - the remote call is invoked. -/
theorem claim_C3_amended (agent : ℕ) (run : Except PyErr String) (s : String) (hs : s ≠ "") :
    main_text_tab (some agent) run "" = ⟨.warnedEmptyTopic, false⟩ ∧
    (main_text_tab (some agent) run s).runInvoked = true := by
  constructor
  · rfl
  · simp [main_text_tab, hs]
    cases run <;> simp

/-- C3 witness: with a live agent and a successful remote call, the empty
string is rejected without a remote call, while the three-space string does
invoke the remote call. -/
theorem claim_C3_witness :
    main_text_tab (some 0) (.ok "faq list") "" = ⟨.warnedEmptyTopic, false⟩ ∧
    (main_text_tab (some 0) (.ok "faq list") "   ").runInvoked = true :=
  claim_C3_amended 0 (.ok "faq list") "   " (by decide)

/-- C4: construction is idempotent after success: with the constructor
succeeding on its first run, the first call returns the agent constructed by
run 0, the N following calls all return that same instance, and the
constructor has run exactly once. -/
theorem claim_C4 (beh : ℕ → Bool) (N : ℕ) (h : beh 0 = true) :
    (get_agent beh AgentCache.fresh).1 = some 0 ∧
    (get_agent_trace beh N (get_agent beh AgentCache.fresh).2).1 =
      List.replicate N (some 0) ∧
    (get_agent_trace beh N (get_agent beh AgentCache.fresh).2).2.constructions = 1 := by
  have h1 : get_agent beh AgentCache.fresh = (some 0, ⟨some (some 0), 1⟩) := by
    simp [get_agent, AgentCache.fresh, h]
  rw [h1]
  have h2 := get_agent_trace_cached beh (some 0) N ⟨some (some 0), 1⟩ rfl
  exact ⟨rfl, by rw [h2], by rw [h2]⟩

/-- C4 witness: with an always-succeeding constructor, the first call and the
three following calls all return the instance of construction 0, and the
constructor ran exactly once. -/
theorem claim_C4_witness :
    (get_agent (fun _ => true) AgentCache.fresh).1 = some 0 ∧
    (get_agent_trace (fun _ => true) 3 (get_agent (fun _ => true) AgentCache.fresh).2).1 =
      List.replicate 3 (some 0) ∧
    (get_agent_trace (fun _ => true) 3
      (get_agent (fun _ => true) AgentCache.fresh).2).2.constructions = 1 :=
  claim_C4 (fun _ => true) 3 rfl

/-- C5 counterexample: on a zero-width source the code divides by the width
with no guard, so the ZeroDivisionError itself reaches the caller of
resize_image_for_display - there is no defined fail-fast error, refuting the
claim that no ZeroDivisionError escapes. -/
theorem claim_C5_counterexample :
    resize_image_for_display ⟨[], 0, 600, .jpeg⟩ = .error .zeroDivisionError := by decide

/-- C5 amended: on every zero-width source, resize_image_for_display raises
ZeroDivisionError, and that exception propagates uncaught to the caller;
the code performs no precondition check of its own. -/
theorem claim_C5_amended (f : UploadedFile) (hw : f.width = 0) :
    resize_image_for_display f = .error .zeroDivisionError := by
  simp [resize_image_for_display, hw]

/-- C5 witness: a concrete zero-width PNG source makes the resize raise
ZeroDivisionError. -/
theorem claim_C5_witness :
    resize_image_for_display ⟨[3], 0, 200, .png⟩ = .error .zeroDivisionError :=
  claim_C5_amended ⟨[3], 0, 200, .png⟩ rfl

/-- C6 counterexample: the claimed formula height = round(maxWidth * h / w)
fails on a 900 x 500 source: the code computes int(300 * (500 / 900)) in
binary64 arithmetic, which truncates 166.66666666666669 to 166, while the
rounding formula of the claim gives 167. -/
theorem claim_C6_counterexample :
    resize_image_for_display ⟨[], 900, 500, .jpeg⟩ = .ok ⟨300, 166, .png⟩ ∧
    specRoundHeight 300 500 900 = 167 ∧
    resize_image_for_display ⟨[], 900, 500, .jpeg⟩ ≠
      .ok ⟨300, specRoundHeight 300 500 900, .png⟩ := by decide

/-- C6 amended: for every positive-width source, resize_image_for_display
returns an image of width MAX_IMAGE_WIDTH whose height is
int(MAX_IMAGE_WIDTH * (h / w)) computed in binary64 floating point -
truncation of the rounded float product, not round of the exact quotient;
for the 900 x 600 source of the spec the float product is exactly 200.0, so
the result is 300 x 200 as the spec states. -/
theorem claim_C6_amended (f : UploadedFile) (hw : f.width ≠ 0) :
    resize_image_for_display f =
      .ok ⟨MAX_IMAGE_WIDTH, pyHeight MAX_IMAGE_WIDTH f.height f.width, .png⟩ ∧
    resize_image_for_display ⟨[], 900, 600, .jpeg⟩ = .ok ⟨300, 200, .png⟩ := by
  constructor
  · simp [resize_image_for_display, hw]
  · decide

/-- C6 witness: an 800 x 600 source resizes to 300 x 225 (here the float
product is exact), and the 900 x 600 source of the spec resizes to 300 x 200. -/
theorem claim_C6_witness :
    resize_image_for_display ⟨[], 800, 600, .png⟩ = .ok ⟨300, 225, .png⟩ ∧
    resize_image_for_display ⟨[], 900, 600, .jpeg⟩ = .ok ⟨300, 200, .png⟩ :=
  claim_C6_amended ⟨[], 800, 600, .png⟩ (by decide)

/-- C7 counterexample: release is os.unlink, and it is not idempotent: after
a first release of the only file on disk succeeds, a second release of the
same path raises FileNotFoundError - refuting the claim that a second release
never raises. -/
theorem claim_C7_counterexample :
    os_unlink ⟨0, ".jpg"⟩ ⟨[(⟨0, ".jpg"⟩, [7])], 1⟩ = .ok ⟨[], 1⟩ ∧
    os_unlink ⟨0, ".jpg"⟩ ⟨[], 1⟩ = .error .fileNotFoundError := by decide

/-- C7 amended: releasing an existing path succeeds and removes it, but
release is not idempotent: an immediately following second release of the
same path raises FileNotFoundError (and so does releasing any missing path).
The flows in main call os.unlink exactly once per materialized artifact, on a
path that still exists, so the error does not occur there. -/
theorem claim_C7_amended (p : TempPath) (fs : FS) (b : List ℕ)
    (hp : lookupFiles p fs.files = some b) :
    os_unlink p fs = .ok ⟨removeFiles p fs.files, fs.next⟩ ∧
    lookupFiles p (removeFiles p fs.files) = none ∧
    os_unlink p ⟨removeFiles p fs.files, fs.next⟩ = .error .fileNotFoundError := by
  refine ⟨by simp [os_unlink, hp], lookupFiles_removeFiles_self p fs.files, ?_⟩
  simp [os_unlink, lookupFiles_removeFiles_self p fs.files]

/-- C7 witness: deleting the concrete temp file with path id 5 succeeds and
empties the store; deleting it again raises FileNotFoundError. -/
theorem claim_C7_witness :
    os_unlink ⟨5, ".jpg"⟩ ⟨[(⟨5, ".jpg"⟩, [1, 2])], 6⟩ =
      .ok ⟨removeFiles ⟨5, ".jpg"⟩ [(⟨5, ".jpg"⟩, [1, 2])], 6⟩ ∧
    lookupFiles ⟨5, ".jpg"⟩ (removeFiles ⟨5, ".jpg"⟩ [(⟨5, ".jpg"⟩, [1, 2])]) = none ∧
    os_unlink ⟨5, ".jpg"⟩ ⟨removeFiles ⟨5, ".jpg"⟩ [(⟨5, ".jpg"⟩, [1, 2])], 6⟩ =
      .error .fileNotFoundError :=
  claim_C7_amended ⟨5, ".jpg"⟩ ⟨[(⟨5, ".jpg"⟩, [1, 2])], 6⟩ [1, 2] (by decide)

/-- C8: if a credential is absent at startup, the module-level block halts
with an error naming exactly the missing key - TAVILY_KEY when it is absent,
otherwise GEMINI_KEY when only that one is absent - and no request is handled
afterwards. -/
theorem claim_C8 (secrets : String → Option String) (reqs : List String) :
    (secrets "TAVILY_KEY" = none →
      secrets_setup secrets = .halted "TAVILY_KEY" ∧ requests_handled secrets reqs = []) ∧
    (∀ t, secrets "TAVILY_KEY" = some t → secrets "GEMINI_KEY" = none →
      secrets_setup secrets = .halted "GEMINI_KEY" ∧ requests_handled secrets reqs = []) := by
  constructor
  · intro h
    have hs : secrets_setup secrets = .halted "TAVILY_KEY" := by simp [secrets_setup, h]
    exact ⟨hs, by simp [requests_handled, hs]⟩
  · intro t h1 h2
    have hs : secrets_setup secrets = .halted "GEMINI_KEY" := by simp [secrets_setup, h1, h2]
    exact ⟨hs, by simp [requests_handled, hs]⟩

/-- C8 witness: with no secrets at all the startup halts naming TAVILY_KEY;
with only TAVILY_KEY present it halts naming GEMINI_KEY; in both cases the
pending request list is never served. -/
theorem claim_C8_witness :
    (secrets_setup (fun _ => none) = .halted "TAVILY_KEY" ∧
      requests_handled (fun _ => none) ["what is algebra"] = []) ∧
    (secrets_setup (fun k => if k = "TAVILY_KEY" then some "tk" else none) =
        .halted "GEMINI_KEY" ∧
      requests_handled (fun k => if k = "TAVILY_KEY" then some "tk" else none)
        ["what is algebra"] = []) :=
  ⟨(claim_C8 (fun _ => none) ["what is algebra"]).1 rfl,
   (claim_C8 (fun k => if k = "TAVILY_KEY" then some "tk" else none)
      ["what is algebra"]).2 "tk" (by decide) (by decide)⟩

/-- C9: resizing never influences what is analyzed: for every image request
the bytes written to the temp file and read by the analysis call are exactly
the original uploaded buffer, while the preview shown to the user is the
PNG-re-encoded resized rendering - the resized bytes appear only in the
display field. -/
theorem claim_C9 (beh : ℕ → Bool) (run : Except PyErr String) (f : UploadedFile)
    (fs : FS) (cache : AgentCache) (hw : f.width ≠ 0) :
    (main_image_tab beh run f true fs cache).analyzedBytes = some f.bytes ∧
    (main_image_tab beh run f true fs cache).displayed =
      some ⟨MAX_IMAGE_WIDTH, pyHeight MAX_IMAGE_WIDTH f.height f.width, .png⟩ := by
  have hres : resize_image_for_display f =
      .ok ⟨MAX_IMAGE_WIDTH, pyHeight MAX_IMAGE_WIDTH f.height f.width, .png⟩ := by
    simp [resize_image_for_display, hw]
  simp [main_image_tab, hres, save_uploaded_file, os_unlink, lookupFiles, removeFiles]

/-- C9 witness: a concrete PNG upload is analyzed from its original bytes
while the preview is the resized PNG rendering. -/
theorem claim_C9_witness :
    (main_image_tab (fun _ => true) (.ok "content") ⟨[9, 8], 5, 7, .png⟩ true
      ⟨[], 0⟩ AgentCache.fresh).analyzedBytes = some [9, 8] ∧
    (main_image_tab (fun _ => true) (.ok "content") ⟨[9, 8], 5, 7, .png⟩ true
      ⟨[], 0⟩ AgentCache.fresh).displayed =
      some ⟨MAX_IMAGE_WIDTH, pyHeight MAX_IMAGE_WIDTH 7 5, .png⟩ :=
  claim_C9 (fun _ => true) (.ok "content") ⟨[9, 8], 5, 7, .png⟩ ⟨[], 0⟩
    AgentCache.fresh (by decide)

/-- C10: for every decodable source of either container, the display bytes
returned by resize_image_for_display are PNG-encoded, while the temp artifact
created by save_uploaded_file carries the fixed suffix .jpg regardless of the
container of the bytes written into it. -/
theorem claim_C10 (f : UploadedFile) (fs : FS) (hw : f.width ≠ 0) :
    Except.map DisplayImage.fmt (resize_image_for_display f) = .ok .png ∧
    (save_uploaded_file f fs).1.suffix = ".jpg" := by
  constructor
  · simp [resize_image_for_display, hw, Except.map]
  · rfl

/-- C10 witness: both a JPEG upload and a PNG upload preview as PNG and are
saved under a .jpg temp name. -/
theorem claim_C10_witness :
    (Except.map DisplayImage.fmt (resize_image_for_display ⟨[1], 10, 20, .jpeg⟩) = .ok .png ∧
      (save_uploaded_file ⟨[1], 10, 20, .jpeg⟩ ⟨[], 0⟩).1.suffix = ".jpg") ∧
    (Except.map DisplayImage.fmt (resize_image_for_display ⟨[2], 10, 20, .png⟩) = .ok .png ∧
      (save_uploaded_file ⟨[2], 10, 20, .png⟩ ⟨[], 0⟩).1.suffix = ".jpg") :=
  ⟨claim_C10 ⟨[1], 10, 20, .jpeg⟩ ⟨[], 0⟩ (by decide),
   claim_C10 ⟨[2], 10, 20, .png⟩ ⟨[], 0⟩ (by decide)⟩

end Tutor
